import Mathlib

/-!
Verification of the notebook-editing core of `the-notebook-mcp`.

This file shallowly embeds the Python modules
`the_notebook_mcp/core/notebook_ops.py`,
`the_notebook_mcp/tools/cell_tools.py` and
`the_notebook_mcp/tools/output_tools.py` as pure Lean functions and
proves properties of the embedded operations.

Modelling conventions:
* Python exceptions become the `PyError` sum type; each constructor is one
  Python exception class used by the source (ValueError, IndexError,
  PermissionError, FileNotFoundError, IOError).  Message strings follow the
  source's f-strings, except that quote characters around interpolated
  values are omitted.
* `os.path.realpath` is an external platform call; the embedding takes it
  as a function parameter `rp : String -> String`.  `realpathPosix` below
  is its concrete model on a symlink-free POSIX filesystem.
* Byte lengths (`len(s.encode("utf-8"))`) become `String.utf8ByteSize`.
* The filesystem visible to one tool call is the single target path; it is
  modelled by `FileSys` (file contents at the path, plus whether the
  parent directory exists, which determines whether `open(path, "w")`
  succeeds).
* `nbformat.writes` (serialization) is an external collaborator; its
  result's byte length is taken as a function parameter `serLen`.
-/

namespace NbMcp

/-- The cell type tag of a notebook cell (`cell_type` in nbformat). -/
inductive CellType
  | code
  | markdown
  | raw
deriving DecidableEq, Repr

/-- The string form of a `CellType`, as stored in the `cell_type` field. -/
def cellTypeStr : CellType → String
  | .code => "code"
  | .markdown => "markdown"
  | .raw => "raw"

/-- A JSON-ish value stored in an output's `data` map or `text` field:
the source only inspects `str` and `list`-of-`str` values and leaves any
other value untouched (`other` stands for those). -/
inductive JsonVal
  | str (s : String)
  | list (l : List String)
  | other (tag : String)
deriving DecidableEq, Repr

/-- One execution output of a code cell.  `data` models the mime-type keyed
`data` dict when present (an ordered association list), `text` the `text`
field of stream outputs.  Remaining output fields are not inspected by the
embedded code. -/
structure Output where
  output_type : String
  data : Option (List (String × JsonVal))
  text : Option JsonVal
deriving DecidableEq, Repr

/-- One notebook cell.  Cell `id` fields (fresh UUIDs) are abstracted away. -/
structure Cell where
  cell_type : CellType
  source : String
  metadata : List (String × String)
  attachments : List (String × String)
  outputs : List Output
  execution_count : Option Int
deriving DecidableEq, Repr

/-- A parsed notebook document (`nbformat.NotebookNode` at top level). -/
structure NotebookNode where
  cells : List Cell
  metadata : List (String × String)
  nbformat : Nat
  nbformat_minor : Nat
deriving DecidableEq, Repr

/-- Python exception classes raised by the embedded code. -/
inductive PyError
  | valueError (msg : String)
  | indexError (msg : String)
  | permissionError (msg : String)
  | fileNotFoundError (msg : String)
  | ioError (msg : String)
deriving DecidableEq, Repr

/-! ## PathSandbox: `is_path_allowed` (core/notebook_ops.py lines 15-40) -/

/-- POSIX path separator (`os.sep`). -/
def osSep : String := "/"

/-- Model of Python `s.startswith(pre)` as a prefix test on the character
lists (kernel-reducible, unlike `String.startsWith`). -/
def pyStartsWith (s pre : String) : Bool :=
  pre.data.isPrefixOf s.data

/-- Embeds `is_path_allowed(target_path, allowed_roots)`.  The canonicalizer
`rp` models `os.path.realpath`; in the source a canonicalization failure is
treated as unauthorized, here `rp` is total so that branch is absent. -/
def is_path_allowed (rp : String → String) (target_path : String)
    (allowed_roots : List String) : Bool :=
  if allowed_roots.isEmpty then
    false
  else
    let abs_target_path := rp target_path
    allowed_roots.any fun allowed_root =>
      let abs_allowed_root := rp allowed_root
      pyStartsWith abs_target_path (abs_allowed_root ++ osSep)
        || abs_target_path == abs_allowed_root

/-- Splits a character list at every `/`, keeping empty components,
like Python `path.split("/")`. -/
def splitOnSlashAux (cur : List Char) : List Char → List String
  | [] => [String.mk cur.reverse]
  | c :: rest =>
    if c = '/' then String.mk cur.reverse :: splitOnSlashAux [] rest
    else splitOnSlashAux (c :: cur) rest

/-- Components of a path string, separated by `/`. -/
def splitOnSlash (s : String) : List String :=
  splitOnSlashAux [] s.data

/-- Normalizes the components of an absolute POSIX path: drops empty and
`.` components, a `..` component pops the previously accepted component
(at the root it is a no-op, as in POSIX).  The accumulator is kept
reversed. -/
def normParts : List String → List String → List String
  | acc, [] => acc.reverse
  | acc, p :: ps =>
    if p = "" ∨ p = "." then normParts acc ps
    else if p = ".." then normParts acc.tail ps
    else normParts (p :: acc) ps

/-- Joins path components with `/`. -/
def joinSlash : List String → String
  | [] => ""
  | [p] => p
  | p :: ps => p ++ "/" ++ joinSlash ps

/-- Model of `os.path.realpath` on a symlink-free POSIX filesystem:
purely lexical resolution of `.` and `..` segments of an absolute path. -/
def realpathPosix (p : String) : String :=
  "/" ++ joinSlash (normParts [] (splitOnSlash p))

/-- C1. `is_path_allowed` returns true iff the canonical target equals the
canonical form of some root or extends it by the path separator (so the
sibling `/allowed-root-2` does not match root `/allowed-root`); with no
roots it always returns false; and `/root/../etc/passwd` is rejected for
the single root `/root`. -/
theorem C1_authorize :
    (∀ (rp : String → String) (p : String) (roots : List String),
      is_path_allowed rp p roots = true ↔
        ∃ r ∈ roots, pyStartsWith (rp p) (rp r ++ osSep) = true ∨ rp p = rp r)
    ∧ (∀ (rp : String → String) (p : String), is_path_allowed rp p [] = false)
    ∧ is_path_allowed realpathPosix "/root/../etc/passwd" ["/root"] = false
    ∧ is_path_allowed realpathPosix "/allowed-root-2" ["/allowed-root"] = false
    ∧ is_path_allowed realpathPosix "/allowed-root/sub/x.ipynb" ["/allowed-root"] = true := by
  refine ⟨?_, ?_, by decide, by decide, by decide⟩
  · intro rp p roots
    cases roots with
    | nil => simp [is_path_allowed]
    | cons a as =>
      simp [is_path_allowed, List.any_eq_true, Bool.or_eq_true_iff, beq_iff_eq]
  · intro rp p
    rfl

/-! ## Python helpers shared by the cell operations -/

/-- Model of Python `list.insert(i, x)`: inserts before position `i`,
appending when `i` is past the end (Python clamps). -/
def pyInsert (l : List α) (i : Nat) (x : α) : List α :=
  l.take i ++ x :: l.drop i

/-- Line-boundary characters of Python `str.splitlines`. -/
def isLineBoundary (c : Char) : Bool :=
  c == '\n' || c == '\r' || c == '\x0b' || c == '\x0c' ||
  c == '\x1c' || c == '\x1d' || c == '\x1e' || c == '\x85' ||
  c == '\u2028' || c == '\u2029'

/-- Worker for `splitlinesKeepends`; `cur` holds the current line reversed. -/
def splitlinesAux (cur : List Char) : List Char → List (List Char)
  | [] => if cur.isEmpty then [] else [cur.reverse]
  | '\r' :: '\n' :: rest => (cur.reverse ++ ['\r', '\n']) :: splitlinesAux [] rest
  | c :: rest =>
    if isLineBoundary c then (cur.reverse ++ [c]) :: splitlinesAux [] rest
    else splitlinesAux (c :: cur) rest

/-- Model of Python `source.splitlines(True)` (keepends): splits at every
line boundary, `\r\n` counting as one boundary, each line keeping its
terminator; a trailing terminator does not produce an extra empty line. -/
def splitlinesKeepends (s : List Char) : List (List Char) :=
  splitlinesAux [] s

/-! ## Error and result messages (source f-strings, quote marks omitted) -/

/-- Message of the cell-index `IndexError` shared by most tools. -/
def msgCellOOB (i n : Int) : String :=
  "Cell index " ++ toString i ++ " is out of bounds (0-" ++ toString (n - 1) ++ ")."

/-- Message of the `ValueError` for an oversized cell source. -/
def msgSourceSize (maxSize : Nat) : String :=
  "Source content exceeds maximum allowed size (" ++ toString maxSize ++ " bytes)."

/-- Message of the `ValueError` for an out-of-range split line. -/
def msgSplitOOB (split_at_line lineCount : Int) : String :=
  "Split line number " ++ toString split_at_line ++
    " is out of bounds for cell with " ++ toString lineCount ++ " lines."

/-- Message of the `ValueError` for oversized halves after a split. -/
def msgSplitSize (maxSize : Nat) : String :=
  "Resulting source content after split exceeds maximum allowed size (" ++
    toString maxSize ++ " bytes) for one or both cells."

/-- Message of the merge bounds `IndexError`. -/
def msgMergeOOB (first : Int) : String :=
  "Invalid index " ++ toString first ++
    ": Cannot merge last cell or index out of bounds."

/-- Message of the `ValueError` for merging cells of different types. -/
def msgMergeDiff (t1 t2 : CellType) : String :=
  "Cannot merge cells of different types (" ++ cellTypeStr t1 ++ " and " ++
    cellTypeStr t2 ++ ")."

/-- Message of the `ValueError` for merging raw cells. -/
def msgMergeRaw (t : CellType) : String :=
  "Merging is only supported for code and markdown cells (found " ++
    cellTypeStr t ++ ")."

/-- Message of the `ValueError` for an oversized merged source. -/
def msgMergeSize (maxSize : Nat) : String :=
  "Merged source content exceeds maximum allowed size (" ++ toString maxSize ++
    " bytes)."

/-- Message of the `ValueError` for an invalid target cell type. -/
def msgInvalidType (t : String) : String :=
  "Invalid target cell type " ++ t ++ ". Must be one of (code, markdown, raw)."

/-! ## CellEditor operations (tools/cell_tools.py)

Each `...Op` embeds the body of one tool between `read_notebook` and
`write_notebook`: the validations and the in-memory document mutation, in
source order.  The outcome says whether the tool then writes the notebook
back (`write`) or returns without writing (`noWrite`); success message
strings are abstracted to the part not containing the path. -/

/-- Outcome of a cell operation on the loaded document. -/
inductive OpOutcome
  | write (nb : NotebookNode) (msg : String)
  | noWrite (msg : String)
deriving DecidableEq, Repr

/-- Embeds `notebook_edit_cell` lines 50-53: bounds check, then replace the
cell source verbatim.  (The source-size check precedes the read; it is the
tool-level `editPre` below.) -/
def editCellOp (cell_index : Int) (source : String) (nb : NotebookNode) :
    Except PyError OpOutcome :=
  let n : Int := nb.cells.length
  if ¬(0 ≤ cell_index ∧ cell_index < n) then
    .error (.indexError (msgCellOOB cell_index n))
  else
    match nb.cells.get? cell_index.toNat with
    | none => .error (.indexError (msgCellOOB cell_index n))
    | some c =>
      .ok (.write
        { nb with cells := nb.cells.set cell_index.toNat { c with source := source } }
        ("Successfully edited cell " ++ toString cell_index))

/-- Pre-read check of `notebook_edit_cell` (lines 44-47) and
`notebook_add_cell` (lines 88-91): the source-size validation. -/
def sourceSizePre (max_cell_source_size : Nat) (source : String) :
    Except PyError Unit :=
  if source.utf8ByteSize > max_cell_source_size then
    .error (.valueError (msgSourceSize max_cell_source_size))
  else
    .ok ()

/-- A fresh cell from `nbformat.v4.new_code_cell` / `new_markdown_cell`. -/
def newCell (t : CellType) (source : String) (metadata : List (String × String)) : Cell :=
  { cell_type := t, source := source, metadata := metadata, attachments := [],
    outputs := [], execution_count := none }

/-- Embeds `notebook_add_cell` lines 95-108: cell-type dispatch, insertion
index from `insert_after_index + 1`, bounds check, insert. -/
def addCellOp (cell_type : String) (source : String) (insert_after_index : Int)
    (nb : NotebookNode) : Except PyError OpOutcome :=
  let mkCell : Except PyError Cell :=
    if cell_type = "code" then .ok (newCell .code source [])
    else if cell_type = "markdown" then .ok (newCell .markdown source [])
    else .error (.valueError "Invalid cell_type: Must be code or markdown.")
  match mkCell with
  | .error e => .error e
  | .ok new_cell =>
    let insertion_index : Int := insert_after_index + 1
    let n : Int := nb.cells.length
    if ¬(0 ≤ insertion_index ∧ insertion_index ≤ n) then
      .error (.indexError ("Insertion index " ++ toString insertion_index ++
        " (based on insert_after_index " ++ toString insert_after_index ++
        ") is out of bounds (0-" ++ toString n ++ ")."))
    else
      .ok (.write { nb with cells := pyInsert nb.cells insertion_index.toNat new_cell }
        ("Successfully added " ++ cell_type ++ " cell at index " ++
          toString insertion_index))

/-- Embeds `notebook_delete_cell` lines 139-142: bounds check, delete. -/
def deleteCellOp (cell_index : Int) (nb : NotebookNode) : Except PyError OpOutcome :=
  let n : Int := nb.cells.length
  if ¬(0 ≤ cell_index ∧ cell_index < n) then
    .error (.indexError (msgCellOOB cell_index n))
  else
    .ok (.write { nb with cells := nb.cells.eraseIdx cell_index.toNat }
      ("Successfully deleted cell " ++ toString cell_index))

/-- Embeds `notebook_move_cell` lines 178-198: bounds checks on both
indices, early success without writing when `from == to`, otherwise
`pop(from)` then `insert(to if from >= to else to - 1)`. -/
def moveCellOp (from_index to_index : Int) (nb : NotebookNode) :
    Except PyError OpOutcome :=
  let num_cells : Int := nb.cells.length
  if ¬(0 ≤ from_index ∧ from_index < num_cells) then
    .error (.indexError ("Source index " ++ toString from_index ++
      " is out of bounds (0-" ++ toString (num_cells - 1) ++ ")."))
  else if ¬(0 ≤ to_index ∧ to_index ≤ num_cells) then
    .error (.indexError ("Destination index " ++ toString to_index ++
      " is out of bounds (0-" ++ toString num_cells ++ ")."))
  else if from_index = to_index then
    .ok (.noWrite ("Cell at index " ++ toString from_index ++
      " was not moved (source and destination are the same)."))
  else
    match nb.cells.get? from_index.toNat with
    | none => .error (.indexError "pop index out of range")
    | some cell_to_move =>
      let insert_at : Int := if from_index ≥ to_index then to_index else to_index - 1
      let cells' :=
        pyInsert (nb.cells.eraseIdx from_index.toNat) insert_at.toNat cell_to_move
      .ok (.write { nb with cells := cells' }
        ("Successfully moved cell from index " ++ toString from_index ++
          " to " ++ toString to_index))

/-- Embeds `notebook_split_cell` lines 239-289: bounds check, split the
source lines (keepends) at the 1-based `split_at_line`, require
`0 < split_at_line - 1 < line_count`, size-check both halves, put the first
half in the original cell (clearing outputs and execution count for a code
cell), insert a new cell of the same type with a deep copy of the metadata
and the second half immediately after. -/
def splitCellOp (max_cell_source_size : Nat) (cell_index split_at_line : Int)
    (nb : NotebookNode) : Except PyError OpOutcome :=
  let n : Int := nb.cells.length
  if ¬(0 ≤ cell_index ∧ cell_index < n) then
    .error (.indexError (msgCellOOB cell_index n))
  else
    match nb.cells.get? cell_index.toNat with
    | none => .error (.indexError (msgCellOOB cell_index n))
    | some cell_to_split =>
      let lines := splitlinesKeepends cell_to_split.source.data
      let split_index : Int := split_at_line - 1
      if ¬(0 < split_index ∧ split_index < (lines.length : Int)) then
        .error (.valueError (msgSplitOOB split_at_line (lines.length : Int)))
      else
        let source_part1 := String.mk (lines.take split_index.toNat).flatten
        let source_part2 := String.mk (lines.drop split_index.toNat).flatten
        if source_part1.utf8ByteSize > max_cell_source_size
            ∨ source_part2.utf8ByteSize > max_cell_source_size then
          .error (.valueError (msgSplitSize max_cell_source_size))
        else
          let cell1 :=
            if cell_to_split.cell_type = CellType.code then
              { cell_to_split with
                  source := source_part1
                  outputs := []
                  execution_count := none }
            else
              { cell_to_split with source := source_part1 }
          let new_cell : Cell :=
            newCell cell_to_split.cell_type source_part2 cell_to_split.metadata
          let cells' :=
            pyInsert (nb.cells.set cell_index.toNat cell1)
              (cell_index.toNat + 1) new_cell
          .ok (.write { nb with cells := cells' }
            ("Successfully split cell " ++ toString cell_index ++ " at line " ++
              toString split_at_line ++ "."))

/-- Embeds `notebook_merge_cells` lines 333-360: bounds check
`0 <= first < N - 1`, equal cell types, type code or markdown, concatenate
the sources with a `\n` separator, size-check, clear outputs and execution
count when code, delete the second cell.  The second cell's metadata is
discarded with it. -/
def mergeCellsOp (max_cell_source_size : Nat) (first_cell_index : Int)
    (nb : NotebookNode) : Except PyError OpOutcome :=
  let n : Int := nb.cells.length
  if ¬(0 ≤ first_cell_index ∧ first_cell_index < n - 1) then
    .error (.indexError (msgMergeOOB first_cell_index))
  else
    match nb.cells.get? first_cell_index.toNat,
        nb.cells.get? (first_cell_index.toNat + 1) with
    | some cell1, some cell2 =>
      if cell1.cell_type ≠ cell2.cell_type then
        .error (.valueError (msgMergeDiff cell1.cell_type cell2.cell_type))
      else if ¬(cell1.cell_type = CellType.code ∨ cell1.cell_type = CellType.markdown) then
        .error (.valueError (msgMergeRaw cell1.cell_type))
      else
        let separator := "\n"
        let merged_source := cell1.source ++ separator ++ cell2.source
        if merged_source.utf8ByteSize > max_cell_source_size then
          .error (.valueError (msgMergeSize max_cell_source_size))
        else
          let cell1' :=
            if cell1.cell_type = CellType.code then
              { cell1 with
                  source := merged_source
                  outputs := []
                  execution_count := none }
            else
              { cell1 with source := merged_source }
          let cells' :=
            (nb.cells.set first_cell_index.toNat cell1').eraseIdx
              (first_cell_index.toNat + 1)
          .ok (.write { nb with cells := cells' }
            ("Successfully merged cell " ++ toString (first_cell_index + 1) ++
              " into cell " ++ toString first_cell_index ++ "."))
    | _, _ => .error (.indexError (msgMergeOOB first_cell_index))

/-- Pre-read check of `notebook_change_cell_type` (lines 400-402), placed
before the `try` block and hence before any path or file access. -/
def changeTypePre (new_type : String) : Except PyError Unit :=
  if ¬(new_type = "code" ∨ new_type = "markdown" ∨ new_type = "raw") then
    .error (.valueError (msgInvalidType new_type))
  else
    .ok ()

/-- Embeds `notebook_change_cell_type` lines 405-435: bounds check, early
success without writing when the cell already has the target type,
otherwise rebuild the cell with preserved source and metadata; attachments
are dropped when converting into code, kept otherwise; outputs and
execution count exist only on the fresh code cell (cleared). -/
def changeTypeOp (cell_index : Int) (new_type : String) (nb : NotebookNode) :
    Except PyError OpOutcome :=
  let n : Int := nb.cells.length
  if ¬(0 ≤ cell_index ∧ cell_index < n) then
    .error (.indexError (msgCellOOB cell_index n))
  else
    match nb.cells.get? cell_index.toNat with
    | none => .error (.indexError (msgCellOOB cell_index n))
    | some original_cell =>
      if cellTypeStr original_cell.cell_type = new_type then
        .ok (.noWrite ("Cell " ++ toString cell_index ++
          " is already of type " ++ new_type ++ "."))
      else
        let source := original_cell.source
        let metadata := original_cell.metadata
        let attachments := original_cell.attachments
        let new_cell : Cell :=
          if new_type = "code" then
            { cell_type := .code, source := source, metadata := metadata,
              attachments := [], outputs := [], execution_count := none }
          else if new_type = "markdown" then
            { cell_type := .markdown, source := source, metadata := metadata,
              attachments := attachments, outputs := [], execution_count := none }
          else
            { cell_type := .raw, source := source, metadata := metadata,
              attachments := attachments, outputs := [], execution_count := none }
        .ok (.write
          { nb with cells := nb.cells.set cell_index.toNat new_cell }
          ("Successfully changed cell " ++ toString cell_index ++
            " to type " ++ new_type ++ "."))

/-- Embeds `notebook_duplicate_cell` lines 477-505: bounds check, require
`count >= 1`, then `count` times insert a deep copy of the original cell
(with fresh id, abstracted away; outputs and execution count cleared for a
code cell) at positions `cell_index + 1 + i`. -/
def duplicateCellOp (cell_index count : Int) (nb : NotebookNode) :
    Except PyError OpOutcome :=
  let n : Int := nb.cells.length
  if ¬(0 ≤ cell_index ∧ cell_index < n) then
    .error (.indexError (msgCellOOB cell_index n))
  else if count < 1 then
    .error (.valueError "Count must be at least 1.")
  else
    match nb.cells.get? cell_index.toNat with
    | none => .error (.indexError (msgCellOOB cell_index n))
    | some source_cell =>
      let new_cell :=
        if source_cell.cell_type = CellType.code then
          { source_cell with outputs := [], execution_count := none }
        else
          source_cell
      let cells' := (List.range count.toNat).foldl
        (fun cs i => pyInsert cs (cell_index.toNat + 1 + i) new_cell) nb.cells
      .ok (.write { nb with cells := cells' }
        ("Successfully duplicated cell " ++ toString cell_index ++ " " ++
          toString count ++ " times."))

/-! ## DocumentStore (core/notebook_ops.py lines 43-108)

The filesystem seen by one call is the single target path. -/

/-- State of the target path on disk: the notebook stored there (if any)
and whether its parent directory exists (which decides whether
`open(path, "w")` succeeds). -/
structure FileSys where
  file : Option NotebookNode
  parentExists : Bool
deriving DecidableEq, Repr

/-- Context threaded through every tool call: the external collaborators
(`serLen` for the byte length of `nbformat.writes`, `rp` for
`os.path.realpath`) and the per-server configuration. -/
structure ToolCtx where
  serLen : NotebookNode → Nat
  rp : String → String
  path : String
  roots : List String
  max_cell_source_size : Nat

/-- Model of POSIX `os.path.isabs`. -/
def isAbsPath (p : String) : Bool :=
  pyStartsWith p "/"

/-- Checks whether the path ends in `.ipynb` (Python `str.endswith`). -/
def endsWithIpynb (p : String) : Bool :=
  ".ipynb".data.isSuffixOf p.data

/-- Embeds `read_notebook` lines 48-71: absolute-path check, sandbox
check, extension check, existence check, then the parsed document.  Parse
failures of an existing file are outside the model (`file` holds an
already-parsed document). -/
def read_notebook (C : ToolCtx) (fs : FileSys) : Except PyError NotebookNode :=
  if ¬isAbsPath C.path then
    .error (.valueError "Invalid notebook path: Only absolute paths are allowed.")
  else if ¬is_path_allowed C.rp C.path C.roots then
    .error (.permissionError ("Access denied: Path " ++ C.path ++
      " is outside the allowed workspace roots."))
  else if ¬endsWithIpynb C.path then
    .error (.valueError ("Invalid file type: " ++ C.path ++
      " must point to a .ipynb file."))
  else
    match fs.file with
    | none => .error (.fileNotFoundError ("Notebook file not found at: " ++
        C.rp C.path))
    | some nb => .ok nb

/-- Inner `ValueError` message of the write-time size check. -/
def msgNotebookSize (size maxSize : Nat) : String :=
  "Notebook content size (" ++ toString size ++
    " bytes) exceeds maximum allowed size (" ++ toString maxSize ++ " bytes)."

/-- Message wrapper of `write_notebook`'s blanket `except` clause, which
re-raises any exception of the `try` block as `IOError`. -/
def msgWriteFailed (resolved_path inner : String) : String :=
  "Failed to write notebook file " ++ resolved_path ++ ": " ++ inner

/-- Message of the `FileNotFoundError` that `open(path, "w")` raises when
the parent directory of `path` does not exist. -/
def msgNoParentDir (resolved_path : String) : String :=
  "[Errno 2] No such file or directory: " ++ resolved_path

/-- Embeds `write_notebook` lines 81-108: absolute-path, sandbox and
extension checks; then a `try` block that serializes, raises `ValueError`
when the serialized byte length exceeds `max_notebook_size`, and otherwise
opens and overwrites the target file.  The function never creates missing
parent directories, so `open` fails when the parent is absent.  Every
exception of the `try` block - including the size `ValueError` - is caught
by `except Exception` and re-raised as `IOError`. -/
def write_notebook (C : ToolCtx) (nb_node : NotebookNode)
    (max_notebook_size : Nat) (fs : FileSys) : FileSys × Except PyError Unit :=
  if ¬isAbsPath C.path then
    (fs, .error (.valueError
      "Invalid notebook path: Only absolute paths are allowed for writing."))
  else if ¬is_path_allowed C.rp C.path C.roots then
    (fs, .error (.permissionError ("Access denied: Path " ++ C.path ++
      " is outside the allowed workspace roots for writing.")))
  else if ¬endsWithIpynb C.path then
    (fs, .error (.valueError ("Invalid file type: " ++ C.path ++
      " must point to a .ipynb file for writing.")))
  else
    let resolved_path := C.rp C.path
    if C.serLen nb_node > max_notebook_size then
      (fs, .error (.ioError (msgWriteFailed resolved_path
        (msgNotebookSize (C.serLen nb_node) max_notebook_size))))
    else if ¬fs.parentExists then
      (fs, .error (.ioError (msgWriteFailed resolved_path
        (msgNoParentDir resolved_path))))
    else
      ({ fs with file := some nb_node }, .ok ())

/-- Default of `write_notebook`'s `max_notebook_size` parameter
(10 MiB); the cell tools call `write_notebook` without that argument. -/
def DEFAULT_MAX_NOTEBOOK_SIZE : Nat := 10 * 1024 * 1024

/-- Common shape of every cell tool: an optional pre-read validation (run
before the `try` block or at its top, before any file access), then
`read_notebook`, the document operation, and - when the operation asks for
it - `write_notebook`. -/
def runTool (C : ToolCtx) (pre : Except PyError Unit)
    (op : NotebookNode → Except PyError OpOutcome) (fs : FileSys) :
    FileSys × Except PyError String :=
  match pre with
  | .error e => (fs, .error e)
  | .ok _ =>
    match read_notebook C fs with
    | .error e => (fs, .error e)
    | .ok nb =>
      match op nb with
      | .error e => (fs, .error e)
      | .ok (.noWrite msg) => (fs, .ok msg)
      | .ok (.write nb2 msg) =>
        match write_notebook C nb2 DEFAULT_MAX_NOTEBOOK_SIZE fs with
        | (fs2, .ok _) => (fs2, .ok msg)
        | (fs2, .error e) => (fs2, .error e)

/-- Tool `notebook_edit_cell` (cell_tools.py lines 31-72). -/
def notebook_edit_cell (C : ToolCtx) (fs : FileSys) (cell_index : Int)
    (source : String) : FileSys × Except PyError String :=
  runTool C (sourceSizePre C.max_cell_source_size source)
    (editCellOp cell_index source) fs

/-- Tool `notebook_add_cell` (cell_tools.py lines 74-127). -/
def notebook_add_cell (C : ToolCtx) (fs : FileSys) (cell_type source : String)
    (insert_after_index : Int) : FileSys × Except PyError String :=
  runTool C (sourceSizePre C.max_cell_source_size source)
    (addCellOp cell_type source insert_after_index) fs

/-- Tool `notebook_delete_cell` (cell_tools.py lines 129-161). -/
def notebook_delete_cell (C : ToolCtx) (fs : FileSys) (cell_index : Int) :
    FileSys × Except PyError String :=
  runTool C (.ok ()) (deleteCellOp cell_index) fs

/-- Tool `notebook_move_cell` (cell_tools.py lines 163-218). -/
def notebook_move_cell (C : ToolCtx) (fs : FileSys) (from_index to_index : Int) :
    FileSys × Except PyError String :=
  runTool C (.ok ()) (moveCellOp from_index to_index) fs

/-- Tool `notebook_split_cell` (cell_tools.py lines 220-311). -/
def notebook_split_cell (C : ToolCtx) (fs : FileSys)
    (cell_index split_at_line : Int) : FileSys × Except PyError String :=
  runTool C (.ok ()) (splitCellOp C.max_cell_source_size cell_index split_at_line) fs

/-- Tool `notebook_merge_cells` (cell_tools.py lines 313-381). -/
def notebook_merge_cells (C : ToolCtx) (fs : FileSys) (first_cell_index : Int) :
    FileSys × Except PyError String :=
  runTool C (.ok ()) (mergeCellsOp C.max_cell_source_size first_cell_index) fs

/-- Tool `notebook_change_cell_type` (cell_tools.py lines 383-456): the
target-type validation runs before the `try` block, hence before any path
authorization or file access. -/
def notebook_change_cell_type (C : ToolCtx) (fs : FileSys) (cell_index : Int)
    (new_type : String) : FileSys × Except PyError String :=
  runTool C (changeTypePre new_type) (changeTypeOp cell_index new_type) fs

/-- Tool `notebook_duplicate_cell` (cell_tools.py lines 458-528). -/
def notebook_duplicate_cell (C : ToolCtx) (fs : FileSys) (cell_index count : Int) :
    FileSys × Except PyError String :=
  runTool C (.ok ()) (duplicateCellOp cell_index count) fs

/-! ## OutputGuard (tools/output_tools.py lines 48-96)

`notebook_read_cell_output` builds `output_dict = dict(output)` for each
output - a SHALLOW copy: the nested `data` dict object is shared between
the copy and the stored output, while rebinding the top-level `text` key
only affects the copy.  Truncating a `data` field therefore writes through
to the stored output; truncating `text` does not. -/

/-- Model of Python slicing `s[:n]` by characters (kernel-reducible,
unlike `String.take`). -/
def strTake (s : String) (n : Nat) : String :=
  String.mk (s.data.take n)

/-- Placeholder for an oversized image data field. -/
def imgPlaceholder (s : String) : String :=
  "<image data too large: " ++ toString s.utf8ByteSize ++ " bytes>"

/-- Placeholder for an oversized non-image string data field; keeps the
first 256 characters as a preview. -/
def dataPlaceholder (s : String) : String :=
  "<data too large: " ++ toString s.utf8ByteSize ++
    " bytes, first 256 chars: " ++ strTake s 256 ++ "...>"

/-- Placeholder for an oversized list-valued (stream) data field. -/
def streamPlaceholder (s : String) : String :=
  "<stream data too large: " ++ toString s.utf8ByteSize ++
    " bytes, first 256 chars: " ++ strTake s 256 ++ "...>"

/-- Placeholder for an oversized text field. -/
def textPlaceholder (s : String) : String :=
  "<text data too large: " ++ toString s.utf8ByteSize ++
    " bytes, first 256 chars: " ++ strTake s 256 ++ "...>"

/-- The per-field truncation of the `data` dict (lines 53-75): string
values above the limit become an image or data placeholder, list values
whose concatenation is above the limit become a one-element placeholder
list, anything else is untouched. -/
def truncDataField (max_cell_output_size : Nat) (p : String × JsonVal) :
    String × JsonVal :=
  match p.2 with
  | .str s =>
    if s.utf8ByteSize > max_cell_output_size then
      if pyStartsWith p.1 "image/" then (p.1, .str (imgPlaceholder s))
      else (p.1, .str (dataPlaceholder s))
    else p
  | .list l =>
    let joined := String.join l
    if joined.utf8ByteSize > max_cell_output_size then
      (p.1, .list [streamPlaceholder joined])
    else p
  | .other _ => p

/-- Embeds the loop body of `notebook_read_cell_output` for one output
(lines 50-90).  Returns the pair (returned copy, stored output after the
read).  In the `data` branch the assignments mutate the dict shared with
the stored output, so both components change together; in the `text`
branch only the copy's top-level `text` key is rebound. -/
def processOutput (max_cell_output_size : Nat) (output : Output) :
    Output × Output :=
  match output.data with
  | some d =>
    let d2 := d.map (truncDataField max_cell_output_size)
    let mutated := { output with data := some d2 }
    (mutated, mutated)
  | none =>
    match output.text with
    | some (.str s) =>
      if s.utf8ByteSize > max_cell_output_size then
        ({ output with text := some (.str (textPlaceholder s)) }, output)
      else
        (output, output)
    | some (.list l) =>
      let text_content := String.join l
      if text_content.utf8ByteSize > max_cell_output_size then
        ({ output with text := some (.str (textPlaceholder text_content)) }, output)
      else
        (output, output)
    | some (.other _) => (output, output)
    | none => (output, output)

/-! ## Helper lemmas -/

/-- Re-inserting the popped element at its old position restores the list
(Python `l.insert(i, l.pop(i))` is a no-op). -/
theorem pyInsert_eraseIdx_self (l : List α) (i : Nat) (c : α)
    (h : l.get? i = some c) : pyInsert (l.eraseIdx i) i c = l := by
  induction l generalizing i with
  | nil => simp at h
  | cons a t ih =>
    cases i with
    | zero =>
      simp at h
      subst h
      rfl
    | succ j =>
      simp only [List.get?] at h
      have := ih j h
      simp only [List.eraseIdx, pyInsert, List.take, List.drop] at this ⊢
      simp [this]

/-- The element inserted by `pyInsert` sits at the insertion index, as long
as the index is at most the list length. -/
theorem get?_pyInsert_self (l : List α) (i : Nat) (x : α) (h : i ≤ l.length) :
    (pyInsert l i x).get? i = some x := by
  induction l generalizing i with
  | nil =>
    have : i = 0 := Nat.le_zero.mp h
    subst this
    rfl
  | cons a t ih =>
    cases i with
    | zero => rfl
    | succ j =>
      simp only [List.length_cons, Nat.succ_le_succ_iff] at h
      simpa [pyInsert] using ih j h

/-- On any error, `write_notebook` leaves the filesystem untouched. -/
theorem write_notebook_fs_of_error (C : ToolCtx) (nb : NotebookNode) (m : Nat)
    (fs : FileSys) (e : PyError)
    (h : (write_notebook C nb m fs).2 = .error e) :
    (write_notebook C nb m fs).1 = fs := by
  unfold write_notebook at h ⊢
  split_ifs at h ⊢ <;> simp_all

/-- On any error, a tool built from `runTool` leaves the filesystem
untouched: every validation precedes the write. -/
theorem runTool_fs_of_error (C : ToolCtx) (pre : Except PyError Unit)
    (op : NotebookNode → Except PyError OpOutcome) (fs : FileSys) (e : PyError)
    (h : (runTool C pre op fs).2 = .error e) :
    (runTool C pre op fs).1 = fs := by
  unfold runTool at h ⊢
  cases pre with
  | error e2 => rfl
  | ok u =>
    cases hr : read_notebook C fs with
    | error e2 => simp [hr]
    | ok nb =>
      simp only [hr] at h ⊢
      cases hop : op nb with
      | error e2 => simp [hop]
      | ok oc =>
        simp only [hop] at h ⊢
        cases oc with
        | noWrite msg => simp at h ⊢
        | write nb2 msg =>
          rcases hw : write_notebook C nb2 DEFAULT_MAX_NOTEBOOK_SIZE fs with ⟨fs2, r⟩
          simp only [hw] at h ⊢
          cases r with
          | ok u2 => simp at h
          | error e2 =>
            have := write_notebook_fs_of_error C nb2 DEFAULT_MAX_NOTEBOOK_SIZE fs e2
              (by rw [hw])
            rw [hw] at this
            simpa using this

/-! ## Concrete fixtures used by witnesses and counterexamples -/

/-- A code cell with the given source and no metadata or outputs. -/
def codeCell (s : String) : Cell :=
  { cell_type := .code, source := s, metadata := [], attachments := [],
    outputs := [], execution_count := none }

/-- A notebook with the given cells. -/
def mkNb (cells : List Cell) : NotebookNode :=
  { cells := cells, metadata := [], nbformat := 4, nbformat_minor := 5 }

/-- A context whose serializer always reports 20 bytes. -/
def ctxBig : ToolCtx :=
  { serLen := fun _ => 20, rp := realpathPosix, path := "/r/a.ipynb",
    roots := ["/r"], max_cell_source_size := 1000 }

/-- A context whose serializer always reports 0 bytes. -/
def ctxSmall : ToolCtx :=
  { serLen := fun _ => 0, rp := realpathPosix, path := "/r/a.ipynb",
    roots := ["/r"], max_cell_source_size := 1000 }

/-- A context with a relative path outside every root. -/
def ctxRel : ToolCtx :=
  { serLen := fun _ => 0, rp := realpathPosix, path := "rel.txt",
    roots := [], max_cell_source_size := 1000 }

/-- An empty notebook. -/
def nbEmpty : NotebookNode := mkNb []

/-- The three-cell notebook [A, B, C] of the move scenario. -/
def nbABC : NotebookNode := mkNb [codeCell "A", codeCell "B", codeCell "C"]

/-- Target path state: parent directory exists, no file yet. -/
def fsEmptyDir : FileSys := { file := none, parentExists := true }

/-- Target path state: the parent directory is missing. -/
def fsNoParent : FileSys := { file := none, parentExists := false }

/-- Target path state holding the [A, B, C] notebook. -/
def fsABC : FileSys := { file := some nbABC, parentExists := true }

/-- C7. Every cell tool (edit, add, delete, move, split, merge, change
type, duplicate) performs all bounds, size and type validation against the
freshly loaded document before any mutation is persisted: whenever a call
returns an error, the on-disk file state is unchanged, so partial
application never occurs. -/
theorem C7_validate_then_write :
    ∀ (C : ToolCtx) (fs : FileSys) (e : PyError),
      (∀ i source, (notebook_edit_cell C fs i source).2 = .error e →
        (notebook_edit_cell C fs i source).1 = fs)
      ∧ (∀ t source i, (notebook_add_cell C fs t source i).2 = .error e →
        (notebook_add_cell C fs t source i).1 = fs)
      ∧ (∀ i, (notebook_delete_cell C fs i).2 = .error e →
        (notebook_delete_cell C fs i).1 = fs)
      ∧ (∀ f t, (notebook_move_cell C fs f t).2 = .error e →
        (notebook_move_cell C fs f t).1 = fs)
      ∧ (∀ i s, (notebook_split_cell C fs i s).2 = .error e →
        (notebook_split_cell C fs i s).1 = fs)
      ∧ (∀ i, (notebook_merge_cells C fs i).2 = .error e →
        (notebook_merge_cells C fs i).1 = fs)
      ∧ (∀ i t, (notebook_change_cell_type C fs i t).2 = .error e →
        (notebook_change_cell_type C fs i t).1 = fs)
      ∧ (∀ i n, (notebook_duplicate_cell C fs i n).2 = .error e →
        (notebook_duplicate_cell C fs i n).1 = fs) := by
  intro C fs e
  exact ⟨fun i s h => runTool_fs_of_error _ _ _ _ _ h,
    fun t s i h => runTool_fs_of_error _ _ _ _ _ h,
    fun i h => runTool_fs_of_error _ _ _ _ _ h,
    fun f t h => runTool_fs_of_error _ _ _ _ _ h,
    fun i s h => runTool_fs_of_error _ _ _ _ _ h,
    fun i h => runTool_fs_of_error _ _ _ _ _ h,
    fun i t h => runTool_fs_of_error _ _ _ _ _ h,
    fun i n h => runTool_fs_of_error _ _ _ _ _ h⟩

/-- Witness for C7: an out-of-bounds edit on the concrete [A, B, C]
notebook fails with the bounds error and leaves the file state unchanged. -/
theorem C7_validate_then_write_witness :
    (notebook_edit_cell ctxSmall fsABC 99 "x").2 =
      .error (.indexError (msgCellOOB 99 3)) ∧
    (notebook_edit_cell ctxSmall fsABC 99 "x").1 = fsABC :=
  ⟨rfl,
    (C7_validate_then_write ctxSmall fsABC (.indexError (msgCellOOB 99 3))).1
      99 "x" rfl⟩

/-- C10. `notebook_change_cell_type` validates the target type before the
`try` block, hence before any path authorization or file access: with an
invalid `new_type` it returns the invalid-type `ValueError` for every
path - relative, outside all roots, or naming no existing file - and never
reads or writes the file. -/
theorem C10_type_validated_before_path :
    ∀ (C : ToolCtx) (fs : FileSys) (cell_index : Int) (new_type : String),
      new_type ≠ "code" → new_type ≠ "markdown" → new_type ≠ "raw" →
      notebook_change_cell_type C fs cell_index new_type =
        (fs, .error (.valueError (msgInvalidType new_type))) := by
  intro C fs i t h1 h2 h3
  have hcond : ¬(t = "code" ∨ t = "markdown" ∨ t = "raw") := by
    push_neg
    exact ⟨h1, h2, h3⟩
  unfold notebook_change_cell_type runTool changeTypePre
  rw [if_pos hcond]

/-- Witness for C10: changing to the invalid type `heading` on a relative
path outside every root, with no file present, still yields the
invalid-type `ValueError` and leaves the file state unchanged. -/
theorem C10_type_validated_before_path_witness :
    notebook_change_cell_type ctxRel fsEmptyDir 0 "heading" =
      (fsEmptyDir, .error (.valueError (msgInvalidType "heading"))) :=
  C10_type_validated_before_path ctxRel fsEmptyDir 0 "heading"
    (by decide) (by decide) (by decide)

/-- Counterexample to C3 as stated: the write-time size failure is raised
inside `write_notebook`'s `try` block and re-wrapped by its blanket
`except Exception` clause, so the caller receives the generic `IOError`
kind - the same kind as a plain filesystem failure such as a missing
parent directory - and not a distinguishable size `ValueError`. -/
theorem C3_size_error_is_wrapped_into_ioerror :
    (write_notebook ctxBig nbEmpty 10 fsEmptyDir).2 =
      .error (.ioError (msgWriteFailed "/r/a.ipynb" (msgNotebookSize 20 10)))
    ∧ (write_notebook ctxBig nbEmpty 10 fsEmptyDir).2 ≠
      .error (.valueError (msgNotebookSize 20 10))
    ∧ (write_notebook ctxSmall nbEmpty 100 fsNoParent).2 =
      .error (.ioError (msgWriteFailed "/r/a.ipynb" (msgNoParentDir "/r/a.ipynb"))) := by
  refine ⟨rfl, ?_, rfl⟩
  intro h
  rw [show (write_notebook ctxBig nbEmpty 10 fsEmptyDir).2 =
    Except.error (PyError.ioError (msgWriteFailed "/r/a.ipynb"
      (msgNotebookSize 20 10))) from rfl] at h
  simp at h

/-- C3 (amended). When the serialized document exceeds
`max_notebook_size`, `write_notebook` fails before any write executes and
leaves the on-disk file untouched, but the size `ValueError` is caught by
the surrounding `except Exception` clause and surfaces as the generic
`IOError` kind (carrying the size message), so it is not distinguishable
from other I/O failures by exception type. -/
theorem C3_size_checked_before_write :
    ∀ (C : ToolCtx) (nb : NotebookNode) (m : Nat) (fs : FileSys),
      isAbsPath C.path = true →
      is_path_allowed C.rp C.path C.roots = true →
      endsWithIpynb C.path = true →
      C.serLen nb > m →
      write_notebook C nb m fs =
        (fs, .error (.ioError (msgWriteFailed (C.rp C.path)
          (msgNotebookSize (C.serLen nb) m)))) := by
  intro C nb m fs h1 h2 h3 h4
  unfold write_notebook
  rw [if_neg (by simp [h1]), if_neg (by simp [h2]), if_neg (by simp [h3]),
    if_pos h4]

/-- Witness for C3 (amended): a 20-byte document against a 10-byte limit
on an authorized path fails with the wrapped `IOError` and the file state
is unchanged. -/
theorem C3_size_checked_before_write_witness :
    write_notebook ctxBig nbEmpty 10 fsEmptyDir =
      (fsEmptyDir, .error (.ioError (msgWriteFailed (ctxBig.rp ctxBig.path)
        (msgNotebookSize (ctxBig.serLen nbEmpty) 10)))) :=
  C3_size_checked_before_write ctxBig nbEmpty 10 fsEmptyDir
    (by decide) (by decide) (by decide) (by decide)

/-- Counterexample to C8 as stated: on an authorized `.ipynb` path whose
parent directory is missing, `write_notebook` does not create the parent
directories; the `open` call fails and the wrapped `IOError` is raised
instead of the claimed success, leaving the filesystem unchanged. -/
theorem C8_missing_parent_fails :
    write_notebook ctxSmall nbEmpty 1000 fsNoParent =
      (fsNoParent, .error (.ioError (msgWriteFailed "/r/a.ipynb"
        (msgNoParentDir "/r/a.ipynb"))))
    ∧ (write_notebook ctxSmall nbEmpty 1000 fsNoParent).2 ≠ .ok () := by
  refine ⟨rfl, ?_⟩
  intro h
  rw [show (write_notebook ctxSmall nbEmpty 1000 fsNoParent).2 =
    Except.error (PyError.ioError (msgWriteFailed "/r/a.ipynb"
      (msgNoParentDir "/r/a.ipynb"))) from rfl] at h
  simp at h

/-- C8 (amended). `write_notebook` never creates missing parent
directories: for every authorized `.ipynb` path whose parent directory
does not exist (and whose serialized size is within bounds), the write
fails with the wrapped `IOError` from `open` and the filesystem is left
unchanged. -/
theorem C8_no_parent_creation :
    ∀ (C : ToolCtx) (nb : NotebookNode) (m : Nat) (fs : FileSys),
      isAbsPath C.path = true →
      is_path_allowed C.rp C.path C.roots = true →
      endsWithIpynb C.path = true →
      C.serLen nb ≤ m →
      fs.parentExists = false →
      write_notebook C nb m fs =
        (fs, .error (.ioError (msgWriteFailed (C.rp C.path)
          (msgNoParentDir (C.rp C.path))))) := by
  intro C nb m fs h1 h2 h3 h4 h5
  unfold write_notebook
  rw [if_neg (by simp [h1]), if_neg (by simp [h2]), if_neg (by simp [h3]),
    if_neg (by omega), if_pos (by simp [h5])]

/-- Witness for C8 (amended): the concrete missing-parent write fails with
the wrapped `IOError` and the file state is unchanged. -/
theorem C8_no_parent_creation_witness :
    write_notebook ctxSmall nbEmpty 1000 fsNoParent =
      (fsNoParent, .error (.ioError (msgWriteFailed (ctxSmall.rp ctxSmall.path)
        (msgNoParentDir (ctxSmall.rp ctxSmall.path))))) :=
  C8_no_parent_creation ctxSmall nbEmpty 1000 fsNoParent
    (by decide) (by decide) (by decide) (by decide) rfl

/-- C9. No-op idempotence: `move_cell(i, i)` returns success without
writing and `move_cell(i, i+1)` rewrites the observably unchanged
document; `change_type(i, t)` with the cell already of type `t` returns
success without mutating the document. -/
theorem C9_noop_idempotence :
    ∀ (nb : NotebookNode) (i : Nat) (c : Cell),
      nb.cells.get? i = some c →
      moveCellOp (i : Int) (i : Int) nb =
        .ok (.noWrite ("Cell at index " ++ toString (i : Int) ++
          " was not moved (source and destination are the same)."))
      ∧ moveCellOp (i : Int) ((i : Int) + 1) nb =
        .ok (.write nb ("Successfully moved cell from index " ++
          toString (i : Int) ++ " to " ++ toString ((i : Int) + 1)))
      ∧ changeTypeOp (i : Int) (cellTypeStr c.cell_type) nb =
        .ok (.noWrite ("Cell " ++ toString (i : Int) ++
          " is already of type " ++ cellTypeStr c.cell_type ++ ".")) := by
  intro nb i c hget
  have hlen : i < nb.cells.length := by
    rcases List.get?_eq_some.mp hget with ⟨h, _⟩
    exact h
  have hb1 : ¬¬(0 ≤ (i : Int) ∧ (i : Int) < (nb.cells.length : Int)) :=
    not_not_intro ⟨Int.natCast_nonneg i, by exact_mod_cast hlen⟩
  refine ⟨?_, ?_, ?_⟩
  · simp only [moveCellOp]
    rw [if_neg hb1]
    rw [if_neg (not_not_intro ⟨Int.natCast_nonneg i, by
      have := hb1; omega⟩)]
    simp
  · simp only [moveCellOp, Int.toNat_natCast, hget]
    rw [if_neg hb1]
    rw [if_neg (not_not_intro ⟨by omega, by omega⟩)]
    rw [if_neg (show ¬((i : Int) = (i : Int) + 1) by omega)]
    rw [if_neg (show ¬((i : Int) ≥ (i : Int) + 1) by omega)]
    rw [show ((i : Int) + 1 - 1).toNat = i by omega]
    rw [pyInsert_eraseIdx_self nb.cells i c hget]
  · simp only [changeTypeOp, Int.toNat_natCast, hget]
    rw [if_neg hb1]
    simp

/-- Witness for C9: on the concrete [A, B, C] notebook with i = 1, both
moves leave the document unchanged and retyping cell 1 to its current
`code` type is a non-mutating success. -/
theorem C9_noop_idempotence_witness :
    moveCellOp 1 1 nbABC =
      .ok (.noWrite "Cell at index 1 was not moved (source and destination are the same).")
    ∧ moveCellOp 1 2 nbABC =
      .ok (.write nbABC "Successfully moved cell from index 1 to 2")
    ∧ changeTypeOp 1 "code" nbABC =
      .ok (.noWrite "Cell 1 is already of type code.") :=
  C9_noop_idempotence nbABC 1 (codeCell "B") rfl

/-- C4. `move_cell(from, to)` on valid indices removes the cell at `from`
and re-inserts it at the effective index `to` when `from ≥ to` and
`to - 1` when `from < to`, so the moved cell sits at that effective index
of the post-move list; concretely `move_cell(2, 0)` on [A, B, C] yields
[C, A, B]. -/
theorem C4_move_semantics :
    (∀ (nb : NotebookNode) (f t : Int) (c : Cell),
      0 ≤ f → f < (nb.cells.length : Int) →
      0 ≤ t → t ≤ (nb.cells.length : Int) →
      f ≠ t →
      nb.cells.get? f.toNat = some c →
      moveCellOp f t nb =
        .ok (.write { nb with cells := pyInsert (nb.cells.eraseIdx f.toNat) (if f ≥ t then t else t - 1).toNat c } ("Successfully moved cell from index " ++ toString f ++ " to " ++ toString t))
      ∧ (pyInsert (nb.cells.eraseIdx f.toNat) (if f ≥ t then t else t - 1).toNat c).get? (if f ≥ t then t else t - 1).toNat = some c)
    ∧ moveCellOp 2 0 nbABC =
        .ok (.write (mkNb [codeCell "C", codeCell "A", codeCell "B"])
          "Successfully moved cell from index 2 to 0") := by
  constructor
  · intro nb f t c hf0 hfn ht0 htn hne hget
    constructor
    · simp only [moveCellOp, hget]
      rw [if_neg (not_not_intro ⟨hf0, hfn⟩)]
      rw [if_neg (not_not_intro ⟨ht0, htn⟩)]
      rw [if_neg hne]
    · apply get?_pyInsert_self
      have hflen : f.toNat < nb.cells.length := by omega
      rw [List.length_eraseIdx nb.cells f.toNat, if_pos hflen]
      split_ifs with h <;> omega
  · rfl

/-- Witness for C4: moving cell 0 of [A, B, C] to destination 2 inserts it
at effective index 1, giving [B, A, C] with the moved cell at index 1. -/
theorem C4_move_semantics_witness :
    moveCellOp 0 2 nbABC =
      .ok (.write { nbABC with cells := pyInsert (nbABC.cells.eraseIdx (0 : Int).toNat) (if (0 : Int) ≥ 2 then (2 : Int) else 2 - 1).toNat (codeCell "A") } ("Successfully moved cell from index " ++ toString (0 : Int) ++ " to " ++ toString (2 : Int)))
    ∧ (pyInsert (nbABC.cells.eraseIdx (0 : Int).toNat) (if (0 : Int) ≥ 2 then (2 : Int) else 2 - 1).toNat (codeCell "A")).get? (if (0 : Int) ≥ 2 then (2 : Int) else 2 - 1).toNat = some (codeCell "A") :=
  C4_move_semantics.1 nbABC 0 2 (codeCell "A") (by decide) (by decide)
    (by decide) (by decide) (by decide) rfl

/-- C5. `merge_cells(first)` on adjacent same-type code or markdown cells
within the size limit sets the surviving cell's source to
`source(first) ++ "\n" ++ source(first+1)` (always inserting the
separator), clears outputs and execution count when the type is code,
deletes the second cell (discarding its metadata with it), fails with a
domain type `ValueError` when the two types differ or the shared type is
raw; merging code cells ["x=1", "y=2"] yields one cell with source
"x=1\ny=2", and a first source already ending in a newline still gets the
extra separator. -/
theorem C5_merge_semantics :
    (∀ (maxS : Nat) (nb : NotebookNode) (first : Int) (c1 c2 : Cell),
      0 ≤ first → first < (nb.cells.length : Int) - 1 →
      nb.cells.get? first.toNat = some c1 →
      nb.cells.get? (first.toNat + 1) = some c2 →
      (c1.cell_type = c2.cell_type →
        (c1.cell_type = CellType.code ∨ c1.cell_type = CellType.markdown) →
        (c1.source ++ "\n" ++ c2.source).utf8ByteSize ≤ maxS →
        mergeCellsOp maxS first nb =
          .ok (.write { nb with cells := (nb.cells.set first.toNat (if c1.cell_type = CellType.code then { c1 with source := c1.source ++ "\n" ++ c2.source, outputs := [], execution_count := none } else { c1 with source := c1.source ++ "\n" ++ c2.source })).eraseIdx (first.toNat + 1) } ("Successfully merged cell " ++ toString (first + 1) ++ " into cell " ++ toString first ++ ".")))
      ∧ (c1.cell_type ≠ c2.cell_type →
        mergeCellsOp maxS first nb =
          .error (.valueError (msgMergeDiff c1.cell_type c2.cell_type)))
      ∧ (c1.cell_type = CellType.raw → c2.cell_type = CellType.raw →
        mergeCellsOp maxS first nb =
          .error (.valueError (msgMergeRaw CellType.raw))))
    ∧ mergeCellsOp 1000 0 (mkNb [codeCell "x=1", codeCell "y=2"]) =
        .ok (.write (mkNb [codeCell "x=1\ny=2"])
          "Successfully merged cell 1 into cell 0.")
    ∧ mergeCellsOp 1000 0 (mkNb [codeCell "a\n", codeCell "b"]) =
        .ok (.write (mkNb [codeCell "a\n\nb"])
          "Successfully merged cell 1 into cell 0.") := by
  refine ⟨?_, rfl, rfl⟩
  intro maxS nb first c1 c2 h0 h1 hg1 hg2
  refine ⟨?_, ?_, ?_⟩
  · intro hty hcm hsz
    simp only [mergeCellsOp, hg1, hg2]
    rw [if_neg (not_not_intro ⟨h0, h1⟩)]
    rw [if_neg (not_not_intro hty)]
    rw [if_neg (not_not_intro hcm)]
    rw [if_neg (Nat.not_lt.mpr hsz)]
  · intro hty
    simp only [mergeCellsOp, hg1, hg2]
    rw [if_neg (not_not_intro ⟨h0, h1⟩)]
    rw [if_pos hty]
  · intro hr1 hr2
    simp only [mergeCellsOp, hg1, hg2]
    rw [if_neg (not_not_intro ⟨h0, h1⟩)]
    rw [if_neg (not_not_intro (by rw [hr1, hr2]))]
    rw [if_pos (by rw [hr1]; decide), hr1]

/-- Witness for C5: merging the adjacent code cells of the ["x=1", "y=2"]
notebook through the general statement. -/
theorem C5_merge_semantics_witness :
    mergeCellsOp 1000 0 (mkNb [codeCell "x=1", codeCell "y=2"]) =
      .ok (.write { mkNb [codeCell "x=1", codeCell "y=2"] with cells := ((mkNb [codeCell "x=1", codeCell "y=2"]).cells.set (0 : Int).toNat (if (codeCell "x=1").cell_type = CellType.code then { codeCell "x=1" with source := (codeCell "x=1").source ++ "\n" ++ (codeCell "y=2").source, outputs := [], execution_count := none } else { codeCell "x=1" with source := (codeCell "x=1").source ++ "\n" ++ (codeCell "y=2").source })).eraseIdx ((0 : Int).toNat + 1) } ("Successfully merged cell " ++ toString ((0 : Int) + 1) ++ " into cell " ++ toString (0 : Int) ++ ".")) :=
  ((C5_merge_semantics.1 1000 (mkNb [codeCell "x=1", codeCell "y=2"]) 0
    (codeCell "x=1") (codeCell "y=2") (by decide) (by decide) rfl rfl).1
    rfl (Or.inl rfl) (by decide))

/-- Tells whether a cell operation accepted its input and asks for the
document to be written back. -/
def acceptsWrite : Except PyError OpOutcome → Bool
  | .ok (.write _ _) => true
  | _ => false

/-- C2 (amended). `split_cell` accepts exactly the 1-based split lines
`1 < split_at_line ≤ line_count` (line count of `source.splitlines(True)`):
any other value - including the boundary `line_count + 1` - is rejected
with the out-of-bounds `ValueError`, and within the range (and source-size
limits) the split is accepted and written. -/
theorem C2_split_line_range :
    ∀ (maxS : Nat) (nb : NotebookNode) (i s : Int) (c : Cell),
      0 ≤ i → i < (nb.cells.length : Int) →
      nb.cells.get? i.toNat = some c →
      (¬(1 < s ∧ s ≤ ((splitlinesKeepends c.source.data).length : Int)) →
        splitCellOp maxS i s nb =
          .error (.valueError (msgSplitOOB s ((splitlinesKeepends c.source.data).length : Int))))
      ∧ ((1 < s ∧ s ≤ ((splitlinesKeepends c.source.data).length : Int)) →
        (String.mk ((splitlinesKeepends c.source.data).take (s - 1).toNat).flatten).utf8ByteSize ≤ maxS →
        (String.mk ((splitlinesKeepends c.source.data).drop (s - 1).toNat).flatten).utf8ByteSize ≤ maxS →
        acceptsWrite (splitCellOp maxS i s nb) = true) := by
  intro maxS nb i s c h0 h1 hget
  constructor
  · intro hr
    simp only [splitCellOp, hget]
    rw [if_neg (not_not_intro ⟨h0, h1⟩)]
    rw [if_pos (show ¬(0 < s - 1 ∧ s - 1 < ((splitlinesKeepends c.source.data).length : Int)) from fun hq => hr ⟨by omega, by omega⟩)]
  · rintro ⟨hs1, hs2⟩ hz1 hz2
    simp only [splitCellOp, hget]
    rw [if_neg (not_not_intro ⟨h0, h1⟩)]
    rw [if_neg (not_not_intro ⟨by omega, by omega⟩)]
    rw [if_neg (not_or.mpr ⟨Nat.not_lt.mpr hz1, Nat.not_lt.mpr hz2⟩)]
    rfl

/-- Witness for C2 (amended): on a three-line cell, splitting at line 1 is
rejected with the out-of-bounds `ValueError` and splitting at line 2 is
accepted. -/
theorem C2_split_line_range_witness :
    splitCellOp 1000 0 1 (mkNb [codeCell "a\nb\nc"]) =
      .error (.valueError (msgSplitOOB 1 3))
    ∧ acceptsWrite (splitCellOp 1000 0 2 (mkNb [codeCell "a\nb\nc"])) = true :=
  ⟨(C2_split_line_range 1000 (mkNb [codeCell "a\nb\nc"]) 0 1
      (codeCell "a\nb\nc") (by decide) (by decide) rfl).1 (by decide),
    (C2_split_line_range 1000 (mkNb [codeCell "a\nb\nc"]) 0 2
      (codeCell "a\nb\nc") (by decide) (by decide) rfl).2
      (by decide) (by decide) (by decide)⟩

/-- Counterexample to C2 as stated: the boundary value
`split_at_line = line_count + 1` is NOT permitted - on a two-line cell,
splitting at line 3 is rejected with the out-of-bounds `ValueError`
instead of producing an empty tail cell. -/
theorem C2_boundary_split_rejected :
    ((splitlinesKeepends ("a\nb").data).length = 2)
    ∧ splitCellOp 1000 0 3 (mkNb [codeCell "a\nb"]) =
        .error (.valueError (msgSplitOOB 3 2)) :=
  ⟨rfl, rfl⟩

/-- An output whose only oversized field is a data field. -/
def outBigData : Output :=
  { output_type := "execute_result",
    data := some [("text/plain", .str "123456")], text := none }

/-- An output whose only oversized field is the text field. -/
def outBigText : Output :=
  { output_type := "stream", data := none, text := some (.str "123456") }

/-- C6 (amended). Reading cell outputs truncates, per field: the stored
output is untouched when the output carries no data dict (text truncation
happens only on the returned copy), but when a data dict is present the
truncation is applied through the dict shared by the shallow copy, so the
stored output is mutated identically to the returned copy; each oversized
non-image string data field becomes the size-naming placeholder with a
256-character preview, and an oversized text field becomes the text
placeholder in the returned copy. -/
theorem C6_output_truncation :
    ∀ (maxO : Nat) (o : Output),
      (o.data = none → (processOutput maxO o).2 = o)
      ∧ (∀ d, o.data = some d →
          (processOutput maxO o).1 = { o with data := some (d.map (truncDataField maxO)) }
          ∧ (processOutput maxO o).2 = (processOutput maxO o).1)
      ∧ (∀ s, o.data = none → o.text = some (.str s) → s.utf8ByteSize > maxO →
          (processOutput maxO o).1 = { o with text := some (.str (textPlaceholder s)) })
      ∧ (∀ d k mime s, o.data = some d → d.get? k = some (mime, .str s) →
          s.utf8ByteSize > maxO → pyStartsWith mime "image/" = false →
          ((processOutput maxO o).1.data.getD []).get? k =
            some (mime, .str (dataPlaceholder s))) := by
  intro maxO o
  refine ⟨?_, ?_, ?_, ?_⟩
  · intro hd
    simp only [processOutput, hd]
    split
    any_goals rfl
    all_goals split <;> rfl
  · intro d hd
    constructor
    · simp only [processOutput, hd]
    · simp only [processOutput, hd]
  · intro s hd htext hsz
    simp only [processOutput, hd, htext]
    rw [if_pos hsz]
  · intro d k mime s hd hk hsz himg
    simp only [processOutput, hd, Option.getD_some]
    rw [List.get?_map, hk]
    show some (truncDataField maxO (mime, JsonVal.str s)) = _
    simp only [truncDataField]
    rw [if_pos hsz]
    rw [if_neg (by simp [himg])]

/-- Witness for C6 (amended): with limit 4, the oversized data field of
`outBigData` is truncated in the stored output exactly as in the returned
copy, while the oversized text field of `outBigText` is truncated only in
the returned copy and the stored output keeps the original text. -/
theorem C6_output_truncation_witness :
    ((processOutput 4 outBigData).1 = { outBigData with data := some ([("text/plain", JsonVal.str "123456")].map (truncDataField 4)) }
      ∧ (processOutput 4 outBigData).2 = (processOutput 4 outBigData).1)
    ∧ (processOutput 4 outBigText).2 = outBigText
    ∧ (processOutput 4 outBigText).1 = { outBigText with text := some (.str (textPlaceholder "123456")) } :=
  ⟨(C6_output_truncation 4 outBigData).2.1 [("text/plain", JsonVal.str "123456")] rfl,
    (C6_output_truncation 4 outBigText).1 rfl,
    (C6_output_truncation 4 outBigText).2.2.1 "123456" rfl rfl (by decide)⟩

/-- Counterexample to C6 as stated: the underlying stored output IS
mutated by the read when an oversized data field is truncated, because
`dict(output)` is a shallow copy sharing the `data` dict. -/
theorem C6_stored_output_mutated :
    (processOutput 4 outBigData).2 ≠ outBigData := by
  decide

end NbMcp
